import Mathlib

/-!
Verification of `src/Videos/my-projects/video-share.py` (class `GitLFSVideoShare`
and function `main`).

The script is embedded shallowly:

* Python strings are `String`; the handful of Python string/path operations the
  script uses (`str.strip`, `str.startswith`, `str.endswith`, slicing,
  `str.replace`, `pathlib.Path.name`, `pathlib.Path.stem`, `os.path.relpath`,
  `PurePath.relative_to`) are given executable Lean models over `List Char`.
* Filesystem paths are component lists (`FsPath`).
* All side effects (directory creation, `os.chdir`, `subprocess.run`,
  file writes, `shutil.copy2`, QR image saving, console interaction,
  `sys.exit`) are recorded as an explicit event trace; the outcomes of the
  external `git` binary and of the interactive prompts are supplied by an
  environment `Env`.
-/

namespace VideoShare

/-- Filesystem paths, as lists of components ordered from the root. -/
abbrev FsPath := List String

/-! ### Models of the Python string and path operations used by the script -/

/-- Model of `str.strip()` with no argument: remove whitespace from both ends. -/
def pyStrip (s : String) : String :=
  String.mk (((s.data.dropWhile Char.isWhitespace).reverse.dropWhile
    Char.isWhitespace).reverse)

/-- Model of `str.startswith(pre)`. -/
def pyStartsWith (s pre : String) : Bool :=
  pre.data.isPrefixOf s.data

/-- Model of `str.endswith(suf)`. -/
def pyEndsWith (s suf : String) : Bool :=
  suf.data.isSuffixOf s.data

/-- Model of the slice `s[:-n]` for `n ≤ len(s)`. -/
def pyDropRight (s : String) (n : Nat) : String :=
  String.mk (s.data.take (s.data.length - n))

/-- Model of the slice `s[n:]`. -/
def pyDrop (s : String) (n : Nat) : String :=
  String.mk (s.data.drop n)

/-- Auxiliary loop for `str.replace`: replaces leftmost non-overlapping
occurrences of `pat` (assumed nonempty) by `rep`, with explicit fuel so the
recursion is structural. -/
def replaceAux (rep pat : List Char) : Nat → List Char → List Char
  | 0, l => l
  | Nat.succ fuel, l =>
    match l with
    | [] => []
    | c :: rest =>
      if pat.isPrefixOf l ∧ pat ≠ [] then
        rep ++ replaceAux rep pat fuel (l.drop pat.length)
      else
        c :: replaceAux rep pat fuel rest

/-- Model of `str.replace(pat, rep)` for a nonempty pattern (the script only
replaces the literal `"github.com"`). -/
def strReplace (s pat rep : String) : String :=
  String.mk (replaceAux rep.data pat.data s.data.length s.data)

/-- Splits a character list at every occurrence of `c`
(auxiliary for `pathlib.Path.name`). -/
def splitCharAux (c : Char) : List Char → List Char → List (List Char)
  | [], acc => [acc.reverse]
  | x :: xs, acc =>
    if x = c then acc.reverse :: splitCharAux c xs []
    else splitCharAux c xs (x :: acc)

/-- Model of `pathlib.Path(s).name`: the final component of the path string. -/
def pathName (s : String) : String :=
  String.mk ((splitCharAux '/' s.data []).getLastD [])

/-- Index of the last occurrence of `c` in the list, if any
(auxiliary for `pathlib.Path.stem`, which uses `str.rfind('.')`). -/
def rfindAux (c : Char) : List Char → Nat → Option Nat → Option Nat
  | [], _, best => best
  | x :: xs, i, best => rfindAux c xs (i + 1) (if x = c then some i else best)

/-- Model of `pathlib.Path(name).stem` on a bare filename: the name with its
suffix removed, where the suffix starts at the last dot provided that dot is
neither the first nor the last character. -/
def pyStem (name : String) : String :=
  match rfindAux '.' name.data 0 none with
  | some i =>
    if 0 < i ∧ i + 1 < name.data.length then String.mk (name.data.take i) else name
  | none => name

/-- Renders a component list as a path string, as `str()` does on the relative
paths produced by `os.path.relpath` and `PurePath.relative_to` (separator `/`). -/
def renderPath (p : FsPath) : String :=
  String.intercalate "/" p

/-- Model of `PurePath.relative_to(base)`: defined when `base` is an ancestor,
in which case it drops the leading `base` components. -/
def relativeTo (p base : FsPath) : Option FsPath :=
  if base.isPrefixOf p then some (p.drop base.length) else none

/-- Model of `os.path.relpath(p, base)`, restricted to the only case the script
exercises, where `p` lies below `base`. -/
def osRelpath (p base : FsPath) : FsPath :=
  if base.isPrefixOf p then p.drop base.length else p

/-! ### Timestamps -/

/-- The fields of `datetime.now()` that the format string
`'%Y%m%d_%H%M%S'` consumes. -/
structure DateTime where
  year : Nat
  month : Nat
  day : Nat
  hour : Nat
  minute : Nat
  second : Nat
deriving DecidableEq

/-- Field ranges guaranteed by `datetime` for any `datetime.now()` value
(years below 1000 cannot occur on a running system; `datetime` caps the year
at 9999). -/
def DateTime.Valid (t : DateTime) : Prop :=
  1000 ≤ t.year ∧ t.year ≤ 9999 ∧ 1 ≤ t.month ∧ t.month ≤ 12 ∧
    1 ≤ t.day ∧ t.day ≤ 31 ∧ t.hour ≤ 23 ∧ t.minute ≤ 59 ∧ t.second ≤ 59

instance (t : DateTime) : Decidable t.Valid := by
  unfold DateTime.Valid; infer_instance

/-- Two zero-padded decimal digits, as `strftime` renders `%m`, `%d`, `%H`,
`%M`, `%S`. -/
def pad2 (n : Nat) : List Char :=
  [Nat.digitChar (n / 10), Nat.digitChar (n % 10)]

/-- Four decimal digits, as `strftime` renders `%Y` for years 1000–9999. -/
def pad4 (n : Nat) : List Char :=
  [Nat.digitChar (n / 1000), Nat.digitChar (n / 100 % 10),
   Nat.digitChar (n / 10 % 10), Nat.digitChar (n % 10)]

/-- Model of `datetime.now().strftime('%Y%m%d_%H%M%S')`. -/
def fmtTimestamp (t : DateTime) : String :=
  String.mk (pad4 t.year ++ pad2 t.month ++ pad2 t.day ++ ['_'] ++
    pad2 t.hour ++ pad2 t.minute ++ pad2 t.second)

/-- Model of the page file name `f'{timestamp}_{Path(title).stem}.html'`
built in `create_player_page`. -/
def pageFileName (t : DateTime) (title : String) : String :=
  fmtTimestamp t ++ "_" ++ pyStem title ++ ".html"

/-! ### Effects, environment, and the embedded program -/

/-- One observable side effect of the script, in program order. -/
inductive Event where
  | mkdirDir (p : FsPath)
  | chdirTo (p : FsPath)
  | runProc (args : List String)
  | writeTextFile (p : FsPath) (content : String)
  | copyFile2 (src : String) (dst : FsPath)
  | saveImage (p : FsPath) (data : String)
  | consoleOut (msg : String)
  | consoleAsk (msg : String)
  | exitProg (code : Nat)
deriving DecidableEq

/-- Result of one `subprocess.run(..., capture_output=True, text=True)` call. -/
structure CmdResult where
  returncode : Int
  stdout : String
  stderr : String

/-- Everything outside the script that determines a run: the repository path
typed at the first prompt, the initially existing filesystem entries, the
behaviour of the `git` binary, the interactive answers, whether the video file
exists, and the clock. -/
structure Env where
  repoPath : FsPath
  fs0 : List FsPath
  run : List String → CmdResult
  configRaises : Bool
  manualUrl : String
  videoPathInput : String
  videoExists : Bool
  now : DateTime

/-- Model of `GitLFSVideoShare._run_command`: one `subprocess.run` call; raises
(`Except.error`) exactly when the exit status is non-zero, otherwise returns
the stripped standard output. -/
def runCommand (env : Env) (command : List String) :
    List Event × Except String String :=
  let result := env.run command
  ([Event.runProc command],
    if result.returncode ≠ 0 then Except.error ("命令失败: " ++ result.stderr)
    else Except.ok (pyStrip result.stdout))

/-- The URL rewriting in `GitLFSVideoShare._get_github_url`: strip a trailing
`.git`, rewrite an SSH `git@github.com:` remote to `https://`, then replace
`github.com` by `github.io`. -/
def transformUrl (url : String) : String :=
  let url1 := if pyEndsWith url ".git" then pyDropRight url 4 else url
  let url2 :=
    if pyStartsWith url1 "git@github.com:" then "https://" ++ pyDrop url1 15
    else url1
  strReplace url2 "github.com" "github.io"

/-- The prompt text of the manual URL fallback in `_get_github_url`. -/
def githubUrlPrompt : String :=
  "请输入GitHub Pages URL (格式: https://username.github.io/repo): "

/-- Model of `GitLFSVideoShare._get_github_url`: query the `origin` remote URL
via `git config`; on success transform it, otherwise (non-zero exit or a raised
exception) prompt the operator. -/
def getGithubUrl (env : Env) : List Event × String :=
  if env.configRaises then
    ([Event.consoleAsk githubUrlPrompt], pyStrip env.manualUrl)
  else
    let result := env.run ["git", "config", "--get", "remote.origin.url"]
    if result.returncode = 0 then
      ([Event.runProc ["git", "config", "--get", "remote.origin.url"]],
        transformUrl (pyStrip result.stdout))
    else
      ([Event.runProc ["git", "config", "--get", "remote.origin.url"],
        Event.consoleAsk githubUrlPrompt], pyStrip env.manualUrl)

/-- Contents of the `.gitattributes` file written on first-time setup. -/
def gitattributesContent : String :=
  "*.mp4 filter=lfs diff=lfs merge=lfs -text\n" ++
  "*.mkv filter=lfs diff=lfs merge=lfs -text\n" ++
  "*.mov filter=lfs diff=lfs merge=lfs -text\n"

/-- Model of `GitLFSVideoShare.setup_repository` (run by `__init__`): create
the `videos` and `pages` folders, `os.chdir` into the repository, initialize
git and LFS when no `.git` directory exists, then determine the pages URL.
A failing git command is caught, reported, and ends the process
(`sys.exit(1)`, result `none`). -/
def setupRepository (env : Env) : List Event × Option String :=
  let e0 := [Event.mkdirDir (env.repoPath ++ ["videos"]),
             Event.mkdirDir (env.repoPath ++ ["pages"]),
             Event.chdirTo env.repoPath]
  if (env.repoPath ++ [".git"]) ∈ env.fs0 then
    let u := getGithubUrl env
    (e0 ++ u.1, some u.2)
  else
    let eMsg := [Event.consoleOut "初始化Git仓库..."]
    let rInit := runCommand env ["git", "init"]
    match rInit.2 with
    | Except.error msg =>
        (e0 ++ eMsg ++ rInit.1 ++
          [Event.consoleOut ("仓库设置失败: " ++ msg), Event.exitProg 1], none)
    | Except.ok _ =>
        let eAttr := [Event.writeTextFile (env.repoPath ++ [".gitattributes"])
          gitattributesContent]
        let rLfs := runCommand env ["git", "lfs", "install"]
        match rLfs.2 with
        | Except.error msg =>
            (e0 ++ eMsg ++ rInit.1 ++ eAttr ++ rLfs.1 ++
              [Event.consoleOut ("仓库设置失败: " ++ msg), Event.exitProg 1], none)
        | Except.ok _ =>
            let u := getGithubUrl env
            (e0 ++ eMsg ++ rInit.1 ++ eAttr ++ rLfs.1 ++ u.1, some u.2)

/-! ### The HTML template of `create_player_page`

The rendered f-string, split at its three interpolation slots (`{title}`
twice, `{video_relative_path}` once).  Literal braces of the CSS are written
with `\x7b`/`\x7d` escapes. -/

/-- Template text before the first `{title}` slot. -/
def htmlPart1 : String :=
  "\n<!DOCTYPE html>\n<html lang=\"zh-CN\">\n<head>\n    <meta charset=\"UTF-8\">\n    <meta name=\"viewport\" content=\"width=device-width, initial-scale=1.0\">\n    <title>"

/-- Template text between the `<title>` slot and the `<h1>` slot. -/
def htmlPart2 : String :=
  "</title>\n    <style>\n        body \x7b\n            margin: 0;\n            padding: 0;\n            background: #000;\n            display: flex;\n            flex-direction: column;\n            justify-content: center;\n            align-items: center;\n            min-height: 100vh;\n            color: #fff;\n            font-family: system-ui, -apple-system, sans-serif;\n        \x7d\n        .video-container \x7b\n            width: 100%;\n            max-width: 1920px;\n            margin: 20px auto;\n            padding: 0 20px;\n            box-sizing: border-box;\n        \x7d\n        video \x7b\n            width: 100%;\n            max-height: 85vh;\n            background: #000;\n        \x7d\n        h1 \x7b\n            margin: 20px;\n            font-size: 24px;\n            text-align: center;\n        \x7d\n    </style>\n</head>\n<body>\n    <h1>"

/-- Template text between the `<h1>` slot and the `{video_relative_path}`
slot, ending in the opening of the `src` attribute. -/
def htmlPart3 : String :=
  "</h1>\n    <div class=\"video-container\">\n        <video controls preload=\"metadata\">\n            <source src=\"/"

/-- Template text after the `{video_relative_path}` slot, starting with the
closing quote of `src` and the fixed MIME type attribute. -/
def htmlPart4 : String :=
  "\" type=\"video/mp4\">\n            您的浏览器不支持视频播放。\n        </video>\n    </div>\n</body>\n</html>\n"

/-- The rendered `html_content` f-string of `create_player_page`. -/
def htmlTemplate (title videoRelativePath : String) : String :=
  htmlPart1 ++ title ++ htmlPart2 ++ title ++ htmlPart3 ++
    videoRelativePath ++ htmlPart4

/-- Model of `GitLFSVideoShare.create_player_page`: render the template with
the video's path relative to the repository root, write it under `pages/` with
a timestamped name, and return the page path. -/
def createPlayerPage (env : Env) (videoPath : FsPath) (title : String) :
    List Event × FsPath :=
  let videoRelativePath := renderPath (osRelpath videoPath env.repoPath)
  let content := htmlTemplate title videoRelativePath
  let pagePath := env.repoPath ++ ["pages", pageFileName env.now title]
  ([Event.writeTextFile pagePath content], pagePath)

/-- The record returned by a successful `share_video`. -/
structure ShareInfo where
  video_path : String
  page_path : String
  page_url : String
  qr_path : String
deriving DecidableEq

/-- Model of `GitLFSVideoShare.share_video`: copy the video into `videos/`,
create the player page, build the page URL, encode it into a QR image saved
under `qrcodes/`, then `git add` and `git commit`; a failing command aborts
with a wrapped error. -/
def shareVideo (env : Env) (url : String) : List Event × Except String ShareInfo :=
  let videoName := pathName env.videoPathInput
  let targetPath := env.repoPath ++ ["videos", videoName]
  let eCopy := [Event.copyFile2 env.videoPathInput targetPath]
  let page := createPlayerPage env targetPath videoName
  let pagePath := page.2
  let pageRel := (relativeTo pagePath env.repoPath).getD []
  let pageUrl := url ++ "/" ++ renderPath pageRel
  let qrPath := env.repoPath ++ ["qrcodes", pyStem videoName ++ "_qr.png"]
  let eQr := [Event.mkdirDir (env.repoPath ++ ["qrcodes"]),
              Event.saveImage qrPath pageUrl]
  let rAdd := runCommand env ["git", "add", "."]
  match rAdd.2 with
  | Except.error msg =>
      (eCopy ++ page.1 ++ eQr ++ rAdd.1, Except.error ("分享失败: " ++ msg))
  | Except.ok _ =>
      let rCommit := runCommand env ["git", "commit", "-m", "Add video: " ++ videoName]
      match rCommit.2 with
      | Except.error msg =>
          (eCopy ++ page.1 ++ eQr ++ rAdd.1 ++ rCommit.1,
            Except.error ("分享失败: " ++ msg))
      | Except.ok _ =>
          (eCopy ++ page.1 ++ eQr ++ rAdd.1 ++ rCommit.1,
            Except.ok ⟨renderPath targetPath, renderPath pagePath, pageUrl,
              renderPath qrPath⟩)

/-- The banner and first prompt printed by `main`. -/
def mainHeader : List Event :=
  [Event.consoleOut "=== GitHub LFS 视频分享工具 ===\n",
   Event.consoleAsk "请输入GitHub仓库本地路径: "]

/-- The video-path prompt of `main`. -/
def videoPrompt : String := "\n请输入视频文件路径（直接拖入文件即可）: "

/-- The message `main` prints when the typed video path does not exist. -/
def videoMissingMsg : String := "错误：文件不存在！"

/-- The report printed by `main` after a successful share. -/
def successReport (info : ShareInfo) : List Event :=
  [Event.consoleOut "\n=== 分享成功！===",
   Event.consoleOut ("视频路径: " ++ info.video_path),
   Event.consoleOut ("播放页面: " ++ info.page_path),
   Event.consoleOut ("访问地址: " ++ info.page_url),
   Event.consoleOut ("二维码位置: " ++ info.qr_path),
   Event.consoleOut "\n注意：需要手动push到GitHub并启用GitHub Pages才能访问",
   Event.consoleOut "1. git push origin main",
   Event.consoleOut "2. 在GitHub仓库设置中启用GitHub Pages"]

/-- Model of `main`: prompt for the repository path, construct the sharer
(running `setup_repository`), prompt for the video path, reject a missing
file, otherwise share it and print either the report or the wrapped error. -/
def mainProg (env : Env) : List Event :=
  let s := setupRepository env
  match s.2 with
  | none => mainHeader ++ s.1
  | some url =>
    let eAsk := [Event.consoleAsk videoPrompt]
    if env.videoExists then
      let eBusy := [Event.consoleOut "\n处理中..."]
      let sh := shareVideo env url
      match sh.2 with
      | Except.error msg =>
          mainHeader ++ s.1 ++ eAsk ++ eBusy ++ sh.1 ++
            [Event.consoleOut ("\n错误：" ++ msg)]
      | Except.ok info =>
          mainHeader ++ s.1 ++ eAsk ++ eBusy ++ sh.1 ++ successReport info
    else
      mainHeader ++ s.1 ++ eAsk ++ [Event.consoleOut videoMissingMsg]

/-! ### Observations on traces -/

/-- The page contents written by the events of a trace. -/
def pageWriteContent : Event → Option String
  | Event.writeTextFile _ c => some c
  | _ => none

/-- The paths of text files written by an event. -/
def pageWriteTarget : Event → Option FsPath
  | Event.writeTextFile p _ => some p
  | _ => none

/-- The data encoded into an image saved by an event. -/
def imageData : Event → Option String
  | Event.saveImage _ d => some d
  | _ => none

/-- The path of an image saved by an event. -/
def imageTarget : Event → Option FsPath
  | Event.saveImage p _ => some p
  | _ => none

/-- The target of a working-directory change. -/
def chdirTarget : Event → Option FsPath
  | Event.chdirTo p => some p
  | _ => none

/-- The argument list of an external process invocation. -/
def procArgs : Event → Option (List String)
  | Event.runProc a => some a
  | _ => none

/-- The path an event creates or writes in the filesystem, if any. -/
def fsTarget : Event → Option FsPath
  | Event.mkdirDir p => some p
  | Event.writeTextFile p _ => some p
  | Event.copyFile2 _ p => some p
  | Event.saveImage p _ => some p
  | _ => none

/-- The path an event writes file data to (`mkdir` with `exist_ok=True` never
touches an existing entry, so it is excluded). -/
def writeTarget : Event → Option FsPath
  | Event.writeTextFile p _ => some p
  | Event.copyFile2 _ p => some p
  | Event.saveImage p _ => some p
  | _ => none

/-- The filesystem entries present after an event, given those present
before it. -/
def applyEvent (fs : List FsPath) (e : Event) : List FsPath :=
  match fsTarget e with
  | some p => if p ∈ fs then fs else p :: fs
  | none => fs

/-- The filesystem entries present after a trace. -/
def applyTrace (fs : List FsPath) (tr : List Event) : List FsPath :=
  tr.foldl applyEvent fs

/-- The entries a trace creates: targets of events whose path did not yet
exist when the event ran. -/
def createdFiles : List FsPath → List Event → List FsPath
  | _, [] => []
  | fs, e :: tr =>
    let rest := createdFiles (applyEvent fs e) tr
    match fsTarget e with
    | some p => if p ∈ fs then rest else p :: rest
    | none => rest

/-- The entries a trace overwrites: targets of file-writing events whose path
already existed when the event ran. -/
def overwrittenFiles : List FsPath → List Event → List FsPath
  | _, [] => []
  | fs, e :: tr =>
    let rest := overwrittenFiles (applyEvent fs e) tr
    match writeTarget e with
    | some p => if p ∈ fs then p :: rest else rest
    | none => rest

/-- Whether an external process runs before the given message is printed
(events from the first occurrence of the message onward are ignored). -/
def procBeforeMsg (tr : List Event) (msg : String) : Bool :=
  (tr.takeWhile fun e => decide (e ≠ Event.consoleOut msg)).any fun e =>
    (procArgs e).isSome

/-- The working directory after a trace, starting from `c`. -/
def finalCwd (c : FsPath) (tr : List Event) : FsPath :=
  tr.foldl (fun c e => (chdirTarget e).getD c) c

/-- The page contents written along a trace, in order. -/
def pageContents (tr : List Event) : List String :=
  tr.filterMap pageWriteContent

/-- The text-file paths written along a trace, in order. -/
def pageTargets (tr : List Event) : List FsPath :=
  tr.filterMap pageWriteTarget

/-- The data strings encoded into saved images along a trace, in order. -/
def imageDatas (tr : List Event) : List String :=
  tr.filterMap imageData

/-- The image paths saved along a trace, in order. -/
def imageTargets (tr : List Event) : List FsPath :=
  tr.filterMap imageTarget

/-- The working-directory changes along a trace, in order. -/
def chdirEvents (tr : List Event) : List FsPath :=
  tr.filterMap chdirTarget

/-- The destination of a file copy. -/
def copyTarget : Event → Option FsPath
  | Event.copyFile2 _ p => some p
  | _ => none

/-- The file-copy destinations along a trace, in order. -/
def copyTargets (tr : List Event) : List FsPath :=
  tr.filterMap copyTarget

/-! ### Substring containment -/

/-- `pat` occurs as a contiguous substring of `s`. -/
def containsStr (s pat : String) : Prop :=
  ∃ p q : String, s = p ++ pat ++ q

/-- Executable substring check on the underlying character lists. -/
def containsB (l pat : List Char) : Bool :=
  (List.range (l.length + 1)).any fun i =>
    decide ((l.drop i).take pat.length = pat)

/-! ### Helper lemmas -/

theorem strMk_append (a b : List Char) :
    String.mk a ++ String.mk b = String.mk (a ++ b) := rfl

theorem strData_append (s t : String) : (s ++ t).data = s.data ++ t.data := by
  cases s; cases t; rfl

theorem strAppend_assoc (a b c : String) : a ++ b ++ c = a ++ (b ++ c) := by
  cases a; cases b; cases c
  rw [strMk_append, strMk_append, strMk_append, strMk_append, List.append_assoc]

theorem containsStr_containsB (s pat : String) (h : containsStr s pat) :
    containsB s.data pat.data = true := by
  obtain ⟨p, q, hpq⟩ := h
  have hd : s.data = p.data ++ (pat.data ++ q.data) := by
    rw [hpq, strData_append, strData_append, List.append_assoc]
  rw [containsB, List.any_eq_true]
  refine ⟨p.data.length, List.mem_range.mpr ?_, ?_⟩
  · rw [hd]
    simp [List.length_append]
    omega
  · rw [hd, List.drop_left, decide_eq_true_eq, List.take_left]

theorem strData_inj {s t : String} (h : s.data = t.data) : s = t := by
  cases s; cases t; cases h; rfl

theorem isPrefixOf_append_self (l t : List String) :
    l.isPrefixOf (l ++ t) = true := by
  induction l with
  | nil => simp [List.isPrefixOf]
  | cons a as ih => simp [List.isPrefixOf, ih]

theorem relativeTo_append (base rest : FsPath) :
    relativeTo (base ++ rest) base = some rest := by
  rw [relativeTo, if_pos (isPrefixOf_append_self base rest), List.drop_left]

theorem osRelpath_append (base rest : FsPath) :
    osRelpath (base ++ rest) base = rest := by
  rw [osRelpath, if_pos (isPrefixOf_append_self base rest), List.drop_left]

theorem digitChar_injOn :
    ∀ a < 10, ∀ b < 10, Nat.digitChar a = Nat.digitChar b → a = b := by decide

theorem pad2_inj (a b : Nat) (ha : a ≤ 99) (hb : b ≤ 99)
    (h : pad2 a = pad2 b) : a = b := by
  simp only [pad2, List.cons.injEq, and_true] at h
  obtain ⟨h1, h2⟩ := h
  have q1 := digitChar_injOn _ (by omega) _ (by omega) h1
  have q2 := digitChar_injOn _ (by omega) _ (by omega) h2
  omega

theorem pad4_inj (a b : Nat) (ha : a ≤ 9999) (hb : b ≤ 9999)
    (h : pad4 a = pad4 b) : a = b := by
  simp only [pad4, List.cons.injEq, and_true] at h
  obtain ⟨h1, h2, h3, h4⟩ := h
  have q1 := digitChar_injOn _ (by omega) _ (by omega) h1
  have q2 := digitChar_injOn _ (by omega) _ (by omega) h2
  have q3 := digitChar_injOn _ (by omega) _ (by omega) h3
  have q4 := digitChar_injOn _ (by omega) _ (by omega) h4
  omega

theorem fmtTimestamp_injOn (t t2 : DateTime) (h1 : t.Valid) (h2 : t2.Valid)
    (h : fmtTimestamp t = fmtTimestamp t2) : t = t2 := by
  obtain ⟨y1, y2, mo1, mo2, d1, d2, hh, mi, se⟩ := h1
  obtain ⟨y1b, y2b, mo1b, mo2b, d1b, d2b, hhb, mib, seb⟩ := h2
  have hd := congrArg String.data h
  simp only [fmtTimestamp, List.append_assoc] at hd
  obtain ⟨hy, hd⟩ := List.append_inj hd (by simp [pad4])
  obtain ⟨hmo, hd⟩ := List.append_inj hd (by simp [pad2])
  obtain ⟨hda, hd⟩ := List.append_inj hd (by simp [pad2])
  obtain ⟨-, hd⟩ := List.append_inj hd (by simp)
  obtain ⟨hho, hd⟩ := List.append_inj hd (by simp [pad2])
  obtain ⟨hmi, hse⟩ := List.append_inj hd (by simp [pad2])
  have ey := pad4_inj _ _ (by omega) (by omega) hy
  have emo := pad2_inj _ _ (by omega) (by omega) hmo
  have eda := pad2_inj _ _ (by omega) (by omega) hda
  have eho := pad2_inj _ _ (by omega) (by omega) hho
  have emi := pad2_inj _ _ (by omega) (by omega) hmi
  have ese := pad2_inj _ _ (by omega) (by omega) hse
  obtain ⟨ty, tmo, td, th, tmi, ts⟩ := t
  obtain ⟨t2y, t2mo, t2d, t2h, t2mi, t2s⟩ := t2
  simp only [DateTime.mk.injEq]
  exact ⟨ey, emo, eda, eho, emi, ese⟩

theorem pageFileName_inj (t t2 : DateTime) (title title2 : String)
    (h1 : t.Valid) (h2 : t2.Valid)
    (h : pageFileName t title = pageFileName t2 title2) : t = t2 := by
  apply fmtTimestamp_injOn t t2 h1 h2
  have hd := congrArg String.data h
  simp only [pageFileName, strData_append, List.append_assoc] at hd
  have hlen : (fmtTimestamp t).data.length = (fmtTimestamp t2).data.length := by
    simp [fmtTimestamp, pad4, pad2]
  exact strData_inj (List.append_inj hd hlen).1

theorem pageContents_shareVideo (env : Env) (url : String) :
    pageContents (shareVideo env url).1 =
      [htmlTemplate (pathName env.videoPathInput)
        (renderPath (osRelpath (env.repoPath ++ ["videos", pathName env.videoPathInput])
          env.repoPath))] := by
  simp only [shareVideo, createPlayerPage]
  split
  · simp [pageContents, pageWriteContent, runCommand]
  · split <;> simp [pageContents, pageWriteContent, runCommand]

theorem htmlTemplate_contains_mime (t r : String) :
    containsStr (htmlTemplate t r) "type=\"video/mp4\"" := by
  refine ⟨htmlPart1 ++ t ++ htmlPart2 ++ t ++ htmlPart3 ++ r ++ "\" ",
    ">\n            您的浏览器不支持视频播放。\n        </video>\n    </div>\n</body>\n</html>\n", ?_⟩
  have h4 : htmlPart4 = "\" " ++ "type=\"video/mp4\"" ++
      ">\n            您的浏览器不支持视频播放。\n        </video>\n    </div>\n</body>\n</html>\n" := by
    decide
  rw [htmlTemplate, h4]
  simp only [strAppend_assoc]

theorem htmlTemplate_contains_src (t r : String) :
    containsStr (htmlTemplate t r) ("src=\"/" ++ r ++ "\"") := by
  refine ⟨htmlPart1 ++ t ++ htmlPart2 ++ t ++
    "</h1>\n    <div class=\"video-container\">\n        <video controls preload=\"metadata\">\n            <source ",
    " type=\"video/mp4\">\n            您的浏览器不支持视频播放。\n        </video>\n    </div>\n</body>\n</html>\n", ?_⟩
  have h3 : htmlPart3 =
      "</h1>\n    <div class=\"video-container\">\n        <video controls preload=\"metadata\">\n            <source "
        ++ "src=\"/" := by decide
  have h4 : htmlPart4 = "\"" ++
      " type=\"video/mp4\">\n            您的浏览器不支持视频播放。\n        </video>\n    </div>\n</body>\n</html>\n" := by
    decide
  rw [htmlTemplate, h3, h4]
  simp only [strAppend_assoc]

theorem strEmpty_append (s : String) : "" ++ s = s := by
  cases s; rfl

theorem finalCwd_eq (tr : List Event) : ∀ c, finalCwd c tr = (chdirEvents tr).getLastD c := by
  induction tr with
  | nil => intro c; rfl
  | cons e tr ih =>
    intro c
    simp only [finalCwd, chdirEvents, List.foldl_cons, List.filterMap_cons] at ih ⊢
    cases he : chdirTarget e with
    | none => exact ih c
    | some p =>
      show List.foldl _ p tr = (p :: List.filterMap chdirTarget tr).getLastD c
      rw [List.getLastD_cons]
      exact ih p

theorem chdirEvents_setup (env : Env) :
    chdirEvents (setupRepository env).1 = [env.repoPath] := by
  simp only [setupRepository, getGithubUrl]
  split
  · split
    · simp [chdirEvents, chdirTarget]
    · split <;> simp [chdirEvents, chdirTarget]
  · split
    · simp [chdirEvents, chdirTarget, runCommand]
    · split
      · simp [chdirEvents, chdirTarget, runCommand]
      · split
        · simp [chdirEvents, chdirTarget, runCommand]
        · split <;> simp [chdirEvents, chdirTarget, runCommand]

theorem chdirEvents_share (env : Env) (url : String) :
    chdirEvents (shareVideo env url).1 = [] := by
  simp only [shareVideo, createPlayerPage]
  split
  · simp [chdirEvents, chdirTarget, runCommand]
  · split <;> simp [chdirEvents, chdirTarget, runCommand]

theorem chdirEvents_main (env : Env) :
    chdirEvents (mainProg env) = [env.repoPath] := by
  have hs := chdirEvents_setup env
  simp only [chdirEvents] at hs
  simp only [mainProg]
  split
  · simp [chdirEvents, List.filterMap_append, mainHeader, chdirTarget, hs]
  · next url hurl =>
    have hsh := chdirEvents_share env url
    simp only [chdirEvents] at hsh
    split
    · split <;>
        simp [chdirEvents, List.filterMap_append, mainHeader, chdirTarget, hs, hsh,
          successReport]
    · simp [chdirEvents, List.filterMap_append, mainHeader, chdirTarget, hs]

theorem pageTargets_shareVideo (env : Env) (url : String) :
    pageTargets (shareVideo env url).1 =
      [env.repoPath ++ ["pages", pageFileName env.now (pathName env.videoPathInput)]] := by
  simp only [shareVideo, createPlayerPage]
  split
  · simp [pageTargets, pageWriteTarget, runCommand]
  · split <;> simp [pageTargets, pageWriteTarget, runCommand]

theorem imageTargets_shareVideo (env : Env) (url : String) :
    imageTargets (shareVideo env url).1 =
      [env.repoPath ++ ["qrcodes", pyStem (pathName env.videoPathInput) ++ "_qr.png"]] := by
  simp only [shareVideo, createPlayerPage]
  split
  · simp [imageTargets, imageTarget, runCommand]
  · split <;> simp [imageTargets, imageTarget, runCommand]

theorem copyTargets_shareVideo (env : Env) (url : String) :
    copyTargets (shareVideo env url).1 =
      [env.repoPath ++ ["videos", pathName env.videoPathInput]] := by
  simp only [shareVideo, createPlayerPage]
  split
  · simp [copyTargets, copyTarget, runCommand]
  · split <;> simp [copyTargets, copyTarget, runCommand]

/-! ### The claims -/

/-- The timestamp used in the C3 counterexample. -/
def cexTime : DateTime := ⟨2025, 10, 12, 12, 34, 56⟩

/-- C3 counterexample: for the video filename `movie.mp4`, the generated page
filename is `20251012_123456_movie.html`, which contains the video's stem
`movie` but not the video's name `movie.mp4`: the claim "the page filename
contains the video's name" is false as stated. -/
theorem c3_counterexample :
    pageFileName cexTime "movie.mp4" = "20251012_123456_movie.html" ∧
      ¬ containsStr (pageFileName cexTime "movie.mp4") "movie.mp4" := by
  refine ⟨by decide, fun h => ?_⟩
  have hb := containsStr_containsB _ _ h
  revert hb
  decide

/-- C3 (amended): the generated page filename contains the video name's stem
(not the full name) and the formatted timestamp, and two invocations with
distinct `datetime.now()` values — in particular in distinct seconds — never
produce the same page filename, whatever the video names. -/
theorem c3_page_name_stem_unique (t t2 : DateTime) (title title2 : String)
    (h1 : t.Valid) (h2 : t2.Valid) (hne : t ≠ t2) :
    containsStr (pageFileName t title) (pyStem title) ∧
      containsStr (pageFileName t title) (fmtTimestamp t) ∧
      pageFileName t title ≠ pageFileName t2 title2 := by
  refine ⟨⟨fmtTimestamp t ++ "_", ".html", ?_⟩,
    ⟨"", "_" ++ pyStem title ++ ".html", ?_⟩,
    fun h => hne (pageFileName_inj t t2 title title2 h1 h2 h)⟩
  · rw [pageFileName]
  · rw [pageFileName, strEmpty_append]
    simp only [strAppend_assoc]

/-- Witness for the amended C3 at two concrete timestamps one second apart
and the video name `movie.mp4`. -/
theorem c3_page_name_stem_unique_witness :
    (DateTime.Valid ⟨2025, 10, 12, 12, 34, 56⟩ ∧
      DateTime.Valid ⟨2025, 10, 12, 12, 34, 57⟩ ∧
      (⟨2025, 10, 12, 12, 34, 56⟩ : DateTime) ≠ ⟨2025, 10, 12, 12, 34, 57⟩) ∧
    (containsStr (pageFileName ⟨2025, 10, 12, 12, 34, 56⟩ "movie.mp4") (pyStem "movie.mp4") ∧
      containsStr (pageFileName ⟨2025, 10, 12, 12, 34, 56⟩ "movie.mp4")
        (fmtTimestamp ⟨2025, 10, 12, 12, 34, 56⟩) ∧
      pageFileName ⟨2025, 10, 12, 12, 34, 56⟩ "movie.mp4" ≠
        pageFileName ⟨2025, 10, 12, 12, 34, 57⟩ "movie.mp4") :=
  ⟨⟨by decide, by decide, by decide⟩,
    c3_page_name_stem_unique _ _ "movie.mp4" "movie.mp4" (by decide) (by decide) (by decide)⟩

/-- C6 (code bug): the remote-URL rewriting of `_get_github_url` does not
produce the hosting provider's pages URL.  For the HTTPS remote
`https://github.com/alice/videorepo.git` it yields
`https://github.io/alice/videorepo`, and for the SSH remote
`git@github.com:alice/videorepo.git` it yields `https://alice/videorepo`;
neither equals the GitHub Pages URL `https://alice.github.io/videorepo`
that the function's own prompt documents. -/
theorem c6_github_url_divergence :
    transformUrl "https://github.com/alice/videorepo.git" =
        "https://github.io/alice/videorepo" ∧
      transformUrl "git@github.com:alice/videorepo.git" = "https://alice/videorepo" ∧
      transformUrl "https://github.com/alice/videorepo.git" ≠
        "https://alice.github.io/videorepo" ∧
      transformUrl "git@github.com:alice/videorepo.git" ≠
        "https://alice.github.io/videorepo" := by
  refine ⟨by decide, by decide, by decide, by decide⟩

/-- C10: every run performs exactly one working-directory change, to the
repository path (during `setup_repository`), and it persists: whatever the
working directory was at start, it is the repository path at the end of the
trace, so every later command and relative path resolves there. -/
theorem c10_chdir_persists (env : Env) (c0 : FsPath) :
    chdirEvents (mainProg env) = [env.repoPath] ∧
      finalCwd c0 (mainProg env) = env.repoPath := by
  refine ⟨chdirEvents_main env, ?_⟩
  rw [finalCwd_eq, chdirEvents_main env]
  rfl

/-- C2: for every run of `share_video`, the string encoded into the QR image
is the hosting base URL, a `/`, and the generated player page's path relative
to the repository root (the path `create_player_page` returned, made relative
via `relative_to`). -/
theorem c2_qr_content (env : Env) (url : String) :
    ∃ rel, relativeTo (createPlayerPage env
        (env.repoPath ++ ["videos", pathName env.videoPathInput])
        (pathName env.videoPathInput)).2 env.repoPath = some rel ∧
      imageDatas (shareVideo env url).1 = [url ++ "/" ++ renderPath rel] := by
  refine ⟨["pages", pageFileName env.now (pathName env.videoPathInput)], ?_, ?_⟩
  · simp only [createPlayerPage]
    exact relativeTo_append env.repoPath _
  · simp only [shareVideo, createPlayerPage, relativeTo_append, Option.getD_some]
    split
    · simp [imageDatas, imageData, runCommand]
    · split <;> simp [imageDatas, imageData, runCommand]

/-- C4: the player page written by `share_video` embeds the copied video
through a `src` attribute of the form `/REL` where `REL` is the video's path
relative to the repository root (`os.path.relpath(target, repo)`), which
evaluates to `videos/NAME`. -/
theorem c4_src_relative_path (env : Env) (url : String) :
    osRelpath (env.repoPath ++ ["videos", pathName env.videoPathInput]) env.repoPath
        = ["videos", pathName env.videoPathInput] ∧
      ∃ c, pageContents (shareVideo env url).1 = [c] ∧
        containsStr c ("src=\"/" ++
          renderPath (osRelpath
            (env.repoPath ++ ["videos", pathName env.videoPathInput]) env.repoPath)
          ++ "\"") :=
  ⟨osRelpath_append env.repoPath _,
    ⟨_, pageContents_shareVideo env url, htmlTemplate_contains_src _ _⟩⟩

/-- C9: the player page written by `share_video` always declares the video
source with the fixed MIME type `video/mp4`, whatever the video's filename
and extension. -/
theorem c9_mime_type_fixed (env : Env) (url : String) :
    ∃ c, pageContents (shareVideo env url).1 = [c] ∧
      containsStr c "type=\"video/mp4\"" :=
  ⟨_, pageContents_shareVideo env url, htmlTemplate_contains_mime _ _⟩

/-- A run on a fresh repository directory (no `.git`, cooperative `git`
binary) where the typed video path does not exist. -/
def cexEnvC1 : Env :=
  ⟨["repo"], [["repo"]], fun _ => ⟨0, "", ""⟩, false,
    "https://alice.github.io/repo", "/home/alice/movie.mp4", false,
    ⟨2025, 10, 12, 10, 0, 0⟩⟩

/-- C1 counterexample: with a fresh repository directory and a non-existent
video path, the "file does not exist" error is surfaced only after
`setup_repository` has already run `git` commands (`git init`, `git lfs
install`, `git config`) and created files (among them `.gitattributes`):
the claim "no files are created and an error is surfaced before any
version-control command" is false as stated. -/
theorem c1_counterexample :
    cexEnvC1.videoExists = false ∧
      Event.consoleOut videoMissingMsg ∈ mainProg cexEnvC1 ∧
      procBeforeMsg (mainProg cexEnvC1) videoMissingMsg = true ∧
      ["repo", ".gitattributes"] ∈ createdFiles cexEnvC1.fs0 (mainProg cexEnvC1) := by
  refine ⟨rfl, by decide, by decide, by decide⟩

/-- C1 (amended): when the typed video path does not exist and setup
completed, `main` prints the error and stops immediately after the
video-path prompt: the whole trace is the banner, the setup-phase events,
the prompt, and the error — so no file is created and no version-control
command runs after the failed existence check, while the setup phase
(directory creation, possible git/LFS initialization, remote query)
has already run before it. -/
theorem c1_error_is_final (env : Env) (url : String)
    (hv : env.videoExists = false) (hs : (setupRepository env).2 = some url) :
    mainProg env = mainHeader ++ (setupRepository env).1 ++
      [Event.consoleAsk videoPrompt, Event.consoleOut videoMissingMsg] := by
  simp [mainProg, hs, hv, List.append_assoc]

/-- Witness for the amended C1 at the concrete environment of the
counterexample. -/
theorem c1_error_is_final_witness :
    (cexEnvC1.videoExists = false ∧
      (setupRepository cexEnvC1).2 = some (transformUrl "")) ∧
    mainProg cexEnvC1 = mainHeader ++ (setupRepository cexEnvC1).1 ++
      [Event.consoleAsk videoPrompt, Event.consoleOut videoMissingMsg] :=
  ⟨⟨rfl, by decide⟩, c1_error_is_final cexEnvC1 (transformUrl "") rfl (by decide)⟩

/-- C5: when the `.git` directory already exists in the repository path,
`setup_repository` performs no re-initialization: it never invokes
`git init` or `git lfs install` and never writes the `.gitattributes`
file (its only possible process invocation is the `git config` remote
query of `_get_github_url`). -/
theorem c5_no_reinit (env : Env)
    (hgit : (env.repoPath ++ [".git"]) ∈ env.fs0) :
    Event.runProc ["git", "init"] ∉ (setupRepository env).1 ∧
      Event.runProc ["git", "lfs", "install"] ∉ (setupRepository env).1 ∧
      ∀ c, Event.writeTextFile (env.repoPath ++ [".gitattributes"]) c ∉
        (setupRepository env).1 := by
  simp only [setupRepository, getGithubUrl, if_pos hgit]
  split
  · simp
  · split <;> simp

/-- An already-initialized repository environment for the C5 witness. -/
def envGitC5 : Env :=
  ⟨["repo"], [["repo"], ["repo", ".git"]], fun _ => ⟨0, "", ""⟩, false,
    "https://alice.github.io/repo", "/home/alice/movie.mp4", true,
    ⟨2025, 10, 12, 10, 0, 0⟩⟩

/-- Witness for C5 at a concrete already-initialized repository. -/
theorem c5_no_reinit_witness :
    ((["repo"] ++ [".git"] : FsPath) ∈ envGitC5.fs0) ∧
    (Event.runProc ["git", "init"] ∉ (setupRepository envGitC5).1 ∧
      Event.runProc ["git", "lfs", "install"] ∉ (setupRepository envGitC5).1 ∧
      ∀ c, Event.writeTextFile (envGitC5.repoPath ++ [".gitattributes"]) c ∉
        (setupRepository envGitC5).1) :=
  ⟨by decide, c5_no_reinit envGitC5 (by decide)⟩

/-- C7: `_run_command` raises exactly when the command's exit status is
non-zero (returning the stripped standard output otherwise), and such a
failure is fatal to `share_video`: if `git add .` exits non-zero the share
returns an error and the `git commit` step never runs. -/
theorem c7_nonzero_exit_fatal (env : Env) (command : List String) (url : String) :
    ((runCommand env command).2 =
        Except.error ("命令失败: " ++ (env.run command).stderr) ↔
        (env.run command).returncode ≠ 0) ∧
      ((env.run command).returncode = 0 →
        (runCommand env command).2 = Except.ok (pyStrip (env.run command).stdout)) ∧
      ((env.run ["git", "add", "."]).returncode ≠ 0 →
        (∃ msg, (shareVideo env url).2 = Except.error msg) ∧
        ∀ m, Event.runProc ["git", "commit", "-m", m] ∉ (shareVideo env url).1) := by
  refine ⟨?_, ?_, ?_⟩
  · rw [runCommand]
    split
    · next hz => simp [hz]
    · next hz => simp at hz; simp [hz]
  · intro h
    rw [runCommand]
    split
    · next hz => exact absurd h hz
    · rfl
  · intro hadd
    have hr : (runCommand env ["git", "add", "."]).2 =
        Except.error ("命令失败: " ++ (env.run ["git", "add", "."]).stderr) := by
      rw [runCommand]
      exact if_pos hadd
    constructor
    · refine ⟨"分享失败: " ++ ("命令失败: " ++ (env.run ["git", "add", "."]).stderr), ?_⟩
      simp only [shareVideo, createPlayerPage, hr]
    · intro m
      simp only [shareVideo, createPlayerPage, hr]
      simp [runCommand]

/-- An environment whose `git add .` invocation fails, for the C7 witness. -/
def envAddFailC7 : Env :=
  ⟨["repo"], [["repo"], ["repo", ".git"]],
    fun args => if args = ["git", "add", "."] then ⟨1, "", "boom"⟩ else ⟨0, "", ""⟩,
    false, "https://alice.github.io/repo", "/home/alice/movie.mp4", true,
    ⟨2025, 10, 12, 10, 0, 0⟩⟩

/-- Witness for C7 at a concrete environment whose `git add .` fails. -/
theorem c7_nonzero_exit_fatal_witness :
    ((envAddFailC7.run ["git", "add", "."]).returncode ≠ 0) ∧
    ((runCommand envAddFailC7 ["git", "status"]).2 =
        Except.error ("命令失败: " ++ (envAddFailC7.run ["git", "status"]).stderr) ↔
        (envAddFailC7.run ["git", "status"]).returncode ≠ 0) ∧
    ((∃ msg, (shareVideo envAddFailC7 "https://alice.github.io/repo").2 =
        Except.error msg) ∧
      ∀ m, Event.runProc ["git", "commit", "-m", m] ∉
        (shareVideo envAddFailC7 "https://alice.github.io/repo").1) :=
  ⟨by decide,
    (c7_nonzero_exit_fatal envAddFailC7 ["git", "status"]
      "https://alice.github.io/repo").1,
    (c7_nonzero_exit_fatal envAddFailC7 ["git", "add", "."]
      "https://alice.github.io/repo").2.2 (by decide)⟩

/-- First run for the C8 counterexample: the video `movie.mp4` is shared
successfully in an initialized repository. -/
def cexShareEnv1 : Env :=
  ⟨["repo"], [["repo"], ["repo", ".git"]], fun _ => ⟨0, "", ""⟩, true,
    "https://alice.github.io/repo", "/home/alice/movie.mp4", true,
    ⟨2025, 10, 12, 10, 0, 0⟩⟩

/-- Second run for the C8 counterexample: the same video is shared again one
second later, on the filesystem left behind by the first run. -/
def cexShareEnv2 : Env :=
  ⟨["repo"], applyTrace cexShareEnv1.fs0 (mainProg cexShareEnv1),
    fun _ => ⟨0, "", ""⟩, true, "https://alice.github.io/repo",
    "/home/alice/movie.mp4", true, ⟨2025, 10, 12, 10, 0, 1⟩⟩

/-- C8 counterexample: two successful share operations of the same video
name, one second apart.  The first run creates the QR image
`repo/qrcodes/movie_qr.png` and the video copy `repo/videos/movie.mp4`;
the second run overwrites both, so the artifacts are not
create-once/never-mutated as claimed.  The second run's page file, by
contrast, is created at a fresh timestamped path, and the first run's page
file is not among the paths the second run overwrites. -/
theorem c8_counterexample :
    Event.consoleOut "\n=== 分享成功！===" ∈ mainProg cexShareEnv1 ∧
      Event.consoleOut "\n=== 分享成功！===" ∈ mainProg cexShareEnv2 ∧
      ["repo", "qrcodes", "movie_qr.png"] ∈
        createdFiles cexShareEnv1.fs0 (mainProg cexShareEnv1) ∧
      ["repo", "qrcodes", "movie_qr.png"] ∈
        overwrittenFiles cexShareEnv2.fs0 (mainProg cexShareEnv2) ∧
      ["repo", "videos", "movie.mp4"] ∈
        overwrittenFiles cexShareEnv2.fs0 (mainProg cexShareEnv2) ∧
      ["repo", "pages", "20251012_100000_movie.html"] ∈
        createdFiles cexShareEnv1.fs0 (mainProg cexShareEnv1) ∧
      ["repo", "pages", "20251012_100001_movie.html"] ∈
        createdFiles cexShareEnv2.fs0 (mainProg cexShareEnv2) ∧
      ["repo", "pages", "20251012_100000_movie.html"] ∉
        overwrittenFiles cexShareEnv2.fs0 (mainProg cexShareEnv2) := by
  refine ⟨by decide, by decide, by decide, by decide, by decide, by decide,
    by decide, by decide⟩

/-- C8 (amended): every `share_video` run writes exactly one page file and
exactly one QR image.  When the same-named video is shared again in the same
repository at a different valid timestamp — in particular in a distinct
second — the new page file targets a different path than the earlier one
(page files are create-once and never overwritten), whereas the QR image path
`qrcodes/{stem}_qr.png` and the copied-video path `videos/{name}` are
identical across the two runs, so the later share overwrites the earlier
share's QR image and video copy. -/
theorem c8_artifacts_create_once (env env2 : Env) (url url2 : String)
    (hrepo : env.repoPath = env2.repoPath)
    (hname : pathName env.videoPathInput = pathName env2.videoPathInput)
    (hv1 : env.now.Valid) (hv2 : env2.now.Valid) (hnow : env.now ≠ env2.now) :
    (pageTargets (shareVideo env url).1).length = 1 ∧
      (imageTargets (shareVideo env url).1).length = 1 ∧
      (∀ p ∈ pageTargets (shareVideo env url).1,
        p ∉ pageTargets (shareVideo env2 url2).1) ∧
      imageTargets (shareVideo env url).1 = imageTargets (shareVideo env2 url2).1 ∧
      copyTargets (shareVideo env url).1 = copyTargets (shareVideo env2 url2).1 := by
  refine ⟨by rw [pageTargets_shareVideo]; rfl,
    by rw [imageTargets_shareVideo]; rfl, ?_, ?_, ?_⟩
  · rw [pageTargets_shareVideo, pageTargets_shareVideo, hrepo]
    intro p hp
    simp only [List.mem_singleton] at hp ⊢
    subst hp
    intro hcontra
    have h2 := (List.append_inj hcontra rfl).2
    simp only [List.cons.injEq, and_true, true_and] at h2
    exact hnow (pageFileName_inj _ _ _ _ hv1 hv2 h2)
  · rw [imageTargets_shareVideo, imageTargets_shareVideo, hrepo, hname]
  · rw [copyTargets_shareVideo, copyTargets_shareVideo, hrepo, hname]

/-- Witness for the amended C8 at the two concrete runs of the
counterexample environments, one second apart. -/
theorem c8_artifacts_create_once_witness :
    (cexShareEnv1.repoPath = cexShareEnv2.repoPath ∧
      pathName cexShareEnv1.videoPathInput = pathName cexShareEnv2.videoPathInput ∧
      cexShareEnv1.now.Valid ∧ cexShareEnv2.now.Valid ∧
      cexShareEnv1.now ≠ cexShareEnv2.now) ∧
    ((pageTargets (shareVideo cexShareEnv1 "u").1).length = 1 ∧
      (imageTargets (shareVideo cexShareEnv1 "u").1).length = 1 ∧
      (∀ p ∈ pageTargets (shareVideo cexShareEnv1 "u").1,
        p ∉ pageTargets (shareVideo cexShareEnv2 "u2").1) ∧
      imageTargets (shareVideo cexShareEnv1 "u").1 =
        imageTargets (shareVideo cexShareEnv2 "u2").1 ∧
      copyTargets (shareVideo cexShareEnv1 "u").1 =
        copyTargets (shareVideo cexShareEnv2 "u2").1) :=
  ⟨⟨rfl, rfl, by decide, by decide, by decide⟩,
    c8_artifacts_create_once cexShareEnv1 cexShareEnv2 "u" "u2" rfl rfl
      (by decide) (by decide) (by decide)⟩

end VideoShare
